import Mathlib

/-!
Verification development for the LLGL staging-transfer core: a shallow embedding of
the Vulkan backend (`VKRenderSystem.cpp`) and Direct3D 11 backend
(`D3D11RenderSystem.cpp`) resource-upload paths, together with theorems settling the
specification claims about buffer/texture writes, staging-buffer lifecycle, and the
device memory manager configuration.

Machine integers are modelled as `Nat` (with explicit `% 2^32` where the source
truncates), nullable host pointers as `Option`, fallible operations as `Except`, and
the sequence of device-side operations performed by a call as an explicit event list.
-/

namespace LLGLSpec

/-- Reduction of a 64-bit value to a 32-bit unsigned value, as performed by a C++
`static_cast<UINT>` on a `std::uint64_t`. -/
def toUINT (x : Nat) : Nat := x % 4294967296

/- CPU access flag bits. Modelled from the spec: the flag header is not under `src/`;
the claims depend only on bit tests, so the concrete bit positions are immaterial. -/
namespace CPUAccessFlags

def Read : Nat := 1

def Write : Nat := 2

end CPUAccessFlags

/- Miscellaneous resource flag bits. Modelled from the spec: the flag header is not
under `src/`; only distinctness of the bits matters for the claims. -/
namespace MiscFlags

def DynamicUsage : Nat := 1

def FixedSamples : Nat := 2

def GenerateMips : Nat := 4

def NoInitialData : Nat := 8

end MiscFlags

/- ----- Renderer configuration and device memory manager construction ----- -/

/-- Vulkan renderer configuration. Only the two fields consumed by the device memory
manager construction are modelled; application info and layer names feed instance
creation only. -/
structure RendererConfigurationVulkan where
  minDeviceMemoryAllocationSize : Nat
  reduceDeviceMemoryFragmentation : Bool
  deriving DecidableEq, Repr

/-- Render system descriptor, reduced to the optional Vulkan renderer configuration
extracted by `GetRendererConfiguration`. -/
structure RenderSystemDescriptor where
  rendererConfig : Option RendererConfigurationVulkan
  deriving DecidableEq, Repr

/-- GetRendererConfiguration (RenderSystemUtils.h): extracts the optional
backend-specific configuration from the render system descriptor. -/
def GetRendererConfiguration (renderSystemDesc : RenderSystemDescriptor) :
    Option RendererConfigurationVulkan :=
  renderSystemDesc.rendererConfig

/-- Tunable arguments handed to the `VKDeviceMemoryManager` constructor, besides the
device handle and the physical-device memory properties. -/
structure VKDeviceMemoryManagerKnobs where
  minAllocationSize : Nat
  reduceFragmentation : Bool
  deriving DecidableEq, Repr

/-- VKRenderSystem constructor, lines 82-88: construction of the device memory
manager from the optional renderer configuration. -/
def VKRenderSystem.makeDeviceMemoryManager (renderSystemDesc : RenderSystemDescriptor) :
    VKDeviceMemoryManagerKnobs :=
  let rendererConfigVK := GetRendererConfiguration renderSystemDesc
  { minAllocationSize :=
      match rendererConfigVK with
      | some config => config.minDeviceMemoryAllocationSize
      | none => 1024 * 1024
    reduceFragmentation :=
      match rendererConfigVK with
      | some config => config.reduceDeviceMemoryFragmentation
      | none => false }

/- ----- Direct3D 11 buffer write/read argument forwarding ----- -/

/-- Arguments forwarded to `D3D11Buffer::UpdateSubresource` / `ReadSubresource` by the
render system. The host data pointer is forwarded unchanged and therefore omitted. -/
structure D3D11SubresourceArgs where
  dataSize : Nat
  offset : Nat
  deriving DecidableEq, Repr

/-- D3D11RenderSystem::WriteBuffer, lines 167-171: forwards the 64-bit `dataSize` and
`offset` through `static_cast<UINT>` to the buffer's subresource update. -/
def D3D11RenderSystem.WriteBuffer (offset : Nat) (dataSize : Nat) : D3D11SubresourceArgs :=
  { dataSize := toUINT dataSize, offset := toUINT offset }

/-- D3D11RenderSystem::ReadBuffer, lines 173-177: forwards the 64-bit `dataSize` and
`offset` through `static_cast<UINT>` to the buffer's subresource read. -/
def D3D11RenderSystem.ReadBuffer (offset : Nat) (dataSize : Nat) : D3D11SubresourceArgs :=
  { dataSize := toUINT dataSize, offset := toUINT offset }

/- ----- Vulkan buffer staging protocol ----- -/

/-- Buffer descriptor fields consumed by the Vulkan buffer creation path. -/
structure BufferDescriptor where
  size : Nat
  cpuAccessFlags : Nat
  miscFlags : Nat
  deriving DecidableEq, Repr

/-- Identity of a buffer participating in a device-side copy. -/
inductive VKBufRef where
  | transientStaging
  | retainedStaging
  | hardwareBuffer
  deriving DecidableEq, Repr

/-- Vulkan image layouts appearing in the transfer protocol. -/
inductive VkImageLayout where
  | Undefined
  | TransferDstOptimal
  | TransferSrcOptimal
  | ShaderReadOnlyOptimal
  deriving DecidableEq, Repr

/-- Texture subresource range: base array layer, layer count, base MIP level, MIP
level count. -/
structure TextureSubresource where
  baseArrayLayer : Nat
  numArrayLayers : Nat
  baseMipLevel : Nat
  numMipLevels : Nat
  deriving DecidableEq, Repr

/-- Width, height and depth of a texture extent, in texels. -/
structure Extent3D where
  width : Nat
  height : Nat
  depth : Nat
  deriving DecidableEq, Repr

/-- Signed texel offset of a texture region. -/
structure Offset3D where
  x : Int
  y : Int
  z : Int
  deriving DecidableEq, Repr

/-- Device-side and memory-manager operations performed by the Vulkan render system,
in program order. `hostWriteBuffer` is the host-visible memcpy into a staging
buffer's mapped memory (`VKDevice::WriteBuffer`); `copyBuffer` is
`VKDevice::CopyBuffer(src, dst, size, srcOffset, dstOffset)`;
`releaseStagingRegion` returns the staging buffer's memory region to the device
memory manager. -/
inductive VKEvent where
  | createStagingBuffer (size : Nat)
  | hostWriteBuffer (target : VKBufRef) (dataSize : Nat) (offset : Nat)
  | copyBuffer (src : VKBufRef) (dst : VKBufRef) (size : Nat) (srcOffset : Nat) (dstOffset : Nat)
  | createBufferObject (size : Nat)
  | allocDeviceLocalMemory
  | takeStagingBuffer
  | releaseStagingRegion
  | createTextureObject
  | transitionImageLayout (oldLayout : VkImageLayout) (newLayout : VkImageLayout) (sub : TextureSubresource)
  | copyBufferToImage (offset : Offset3D) (extent : Extent3D) (sub : TextureSubresource)
  | generateMips (sub : TextureSubresource)
  | flushCommandBuffer
  | createImageView
  deriving DecidableEq, Repr

/-- State of a Vulkan buffer object visible to the write/read paths: its size and
whether it owns a retained staging buffer (`GetStagingVkBuffer() != VK_NULL_HANDLE`). -/
structure VKBuffer where
  size : Nat
  hasStagingBuffer : Bool
  deriving DecidableEq, Repr

/-- VKRenderSystem::CreateStagingBufferAndInitialize, lines 950-963: allocates a
host-visible staging buffer of `size` bytes and, only when the host data pointer is
non-null and `dataSize > 0`, copies `dataSize` bytes into it. The nullable data
pointer is modelled by the boolean `dataNonNull`. -/
def CreateStagingBufferAndInitEvents (size : Nat) (dataNonNull : Bool) (dataSize : Nat) :
    List VKEvent :=
  VKEvent.createStagingBuffer size ::
    (if dataNonNull ∧ 0 < dataSize then [VKEvent.hostWriteBuffer .transientStaging dataSize 0] else [])

/-- VKRenderSystem::CreateBuffer, lines 134-173: create and initialize a full-size
staging buffer, create the buffer object, allocate device-local memory, copy the
whole staging buffer into the hardware buffer, then either retain the staging buffer
(CPU access or dynamic usage requested) or release its memory region. -/
def VKRenderSystem.CreateBuffer (bufferDesc : BufferDescriptor) (initialData : Option Unit) :
    VKBuffer × List VKEvent :=
  let retain : Bool :=
    bufferDesc.cpuAccessFlags != 0 || (bufferDesc.miscFlags &&& MiscFlags.DynamicUsage) != 0
  ( { size := bufferDesc.size, hasStagingBuffer := retain },
    CreateStagingBufferAndInitEvents bufferDesc.size initialData.isSome bufferDesc.size ++
      [VKEvent.createBufferObject bufferDesc.size,
       VKEvent.allocDeviceLocalMemory,
       VKEvent.copyBuffer .transientStaging .hardwareBuffer bufferDesc.size 0 0] ++
      (if retain then [VKEvent.takeStagingBuffer] else [VKEvent.releaseStagingRegion]) )

/-- VKRenderSystem::WriteBuffer, lines 195-225: if the buffer has a retained staging
buffer, write the host data into it at `offset` and copy `dataSize` bytes
device-side from staging offset `offset` to buffer offset `offset`; otherwise create
a transient staging buffer of `dataSize` bytes, initialize it, copy device-side from
staging offset 0 to buffer offset `offset`, and release the staging region. -/
def VKRenderSystem.WriteBuffer (buffer : VKBuffer) (offset : Nat) (data : Option Unit)
    (dataSize : Nat) : List VKEvent :=
  if buffer.hasStagingBuffer then
    [VKEvent.hostWriteBuffer .retainedStaging dataSize offset,
     VKEvent.copyBuffer .retainedStaging .hardwareBuffer dataSize offset offset]
  else
    CreateStagingBufferAndInitEvents dataSize data.isSome dataSize ++
      [VKEvent.copyBuffer .transientStaging .hardwareBuffer dataSize 0 offset,
       VKEvent.releaseStagingRegion]

/- ----- Image formats and host image data ----- -/

/-- Logical color value of one texel, as an opaque encoding. Pixel values are
modelled abstractly; the claims concern which values flow where, not their bit
layout. -/
abbrev Color := Nat

/-- Image (pixel) format of host image data: the component layout half of a format
class. -/
inductive ImageFormat where
  | R
  | RG
  | RGB
  | RGBA
  | Depth
  | DepthStencil
  deriving DecidableEq, Repr

/-- Component data type of host image data: the other half of a format class. -/
inductive DataType where
  | UInt8
  | UInt16
  | Float32
  deriving DecidableEq, Repr

/-- Hardware texture formats used in this development (a representative sample of the
format table). -/
inductive Format where
  | RGBA8UNorm
  | RGB8UNorm
  | RG8UNorm
  | R32Float
  | D32Float
  | BC1UNorm
  deriving DecidableEq, Repr

/-- Attributes of a hardware format: bits per texel, its image-format class
(component layout and data type), and the compressed / depth-stencil flags. -/
structure FormatAttributes where
  bitSize : Nat
  format : ImageFormat
  dataType : DataType
  isCompressed : Bool
  isDepthStencil : Bool
  deriving DecidableEq, Repr

/-- Modelled from the spec: GetFormatAttribs (the format conversion table, treated by
the spec as an external collaborator and not under `src/`) maps each hardware format
to its attributes. -/
def GetFormatAttribs : Format → FormatAttributes
  | .RGBA8UNorm => { bitSize := 32, format := .RGBA, dataType := .UInt8, isCompressed := false, isDepthStencil := false }
  | .RGB8UNorm => { bitSize := 24, format := .RGB, dataType := .UInt8, isCompressed := false, isDepthStencil := false }
  | .RG8UNorm => { bitSize := 16, format := .RG, dataType := .UInt8, isCompressed := false, isDepthStencil := false }
  | .R32Float => { bitSize := 32, format := .R, dataType := .Float32, isCompressed := false, isDepthStencil := false }
  | .D32Float => { bitSize := 32, format := .Depth, dataType := .Float32, isCompressed := false, isDepthStencil := true }
  | .BC1UNorm => { bitSize := 64, format := .RGBA, dataType := .UInt8, isCompressed := true, isDepthStencil := false }

/-- Modelled from the spec: ImageFormatSize (ImageFlags, not under `src/`) is the
number of components per texel of an image format. -/
def ImageFormatSize : ImageFormat → Nat
  | .R => 1
  | .RG => 2
  | .RGB => 3
  | .RGBA => 4
  | .Depth => 1
  | .DepthStencil => 2

/-- Modelled from the spec: DataTypeSize (ImageFlags, not under `src/`) is the byte
size of one component. -/
def DataTypeSize : DataType → Nat
  | .UInt8 => 1
  | .UInt16 => 2
  | .Float32 => 4

/-- Modelled from the spec: GetMemoryFootprint (Format.cpp, not under `src/`)
computes the byte footprint of `numTexels` texels of a hardware format from its
per-texel bit size. -/
def GetMemoryFootprint (format : Format) (numTexels : Nat) : Nat :=
  (GetFormatAttribs format).bitSize * numTexels / 8

/-- Modelled from the spec: the overload of GetMemoryFootprint on an image-format
class, used by the D3D11 clear-value initialization. -/
def GetMemoryFootprintImage (format : ImageFormat) (dataType : DataType) (numTexels : Nat) : Nat :=
  ImageFormatSize format * DataTypeSize dataType * numTexels

/-- Host image descriptor for writes: source format class, nullable texel data
(indexed by texel), and the caller-declared byte size of the data. -/
structure SrcImageDescriptor where
  format : ImageFormat
  dataType : DataType
  data : Option (Nat → Color)
  dataSize : Nat

/-- Modelled from the spec: ConvertImageBuffer (ImageFlags.cpp, not under `src/`)
returns an intermediate host buffer exactly when the source format class differs
from the destination class and returns null otherwise; conversion keeps the
logical texel colors. -/
def ConvertImageBuffer (imageDesc : SrcImageDescriptor) (dstFormat : ImageFormat)
    (dstDataType : DataType) : Option (Nat → Color) :=
  if imageDesc.format = dstFormat ∧ imageDesc.dataType = dstDataType then none
  else some (fun i => (imageDesc.data.getD (fun _ => 0)) i)

/-- Modelled from the spec: GenerateImageBuffer (ImageFlags.cpp, not under `src/`)
produces an image buffer of `numTexels` texels all equal to the fill color. -/
def GenerateImageBuffer (format : ImageFormat) (dataType : DataType) (numTexels : Nat)
    (fillColor : Color) : Nat → Color :=
  fun _ => fillColor

/-- Modelled from the spec: AssertImageDataSize (RenderSystem base class, not under
`src/`) accepts a caller-supplied data size exactly when it covers the required
size, and otherwise raises the image-data-size-mismatch error. -/
def AssertImageDataSize (dataSize : Nat) (requiredDataSize : Nat) : Bool :=
  requiredDataSize ≤ dataSize

/-- Errors raised synchronously by the transfer paths. -/
inductive TransferError where
  | ImageDataSizeMismatch
  | InvalidArgument
  deriving DecidableEq, Repr

/- ----- Vulkan texture creation and writes ----- -/

/-- Texture types of the resource model. -/
inductive TextureType where
  | Texture1D
  | Texture1DArray
  | Texture2D
  | Texture2DArray
  | TextureCube
  | TextureCubeArray
  | Texture3D
  | Texture2DMS
  | Texture2DMSArray
  deriving DecidableEq, Repr

/-- Clear value of a texture descriptor; only the color part is consumed by the
modelled paths. -/
structure ClearValue where
  color : Color
  deriving DecidableEq, Repr

/-- Texture descriptor fields consumed by the modelled creation paths. -/
structure TextureDescriptor where
  type : TextureType
  format : Format
  extent : Extent3D
  arrayLayers : Nat
  mipLevels : Nat
  miscFlags : Nat
  clearValue : ClearValue
  deriving DecidableEq, Repr

/-- Region of a texture addressed by a partial write or read. -/
structure TextureRegion where
  subresource : TextureSubresource
  offset : Offset3D
  extent : Extent3D
  deriving DecidableEq, Repr

/-- State of a Vulkan texture object visible to the write path. -/
structure VKTexture where
  format : Format
  numArrayLayers : Nat
  numMipLevels : Nat
  deriving DecidableEq, Repr

/-- Modelled from the spec: MustGenerateMipsOnCreate (TextureUtils, not under `src/`)
holds exactly when the descriptor requests MIP-map generation at creation. -/
def MustGenerateMipsOnCreate (textureDesc : TextureDescriptor) : Bool :=
  (textureDesc.miscFlags &&& MiscFlags.GenerateMips) != 0

/-- Modelled from the spec: NumMipTexels (TextureUtils, not under `src/`) at MIP
level 0 counts the texels of the full extent across all array layers. -/
def NumMipTexels0 (textureDesc : TextureDescriptor) : Nat :=
  textureDesc.extent.width * textureDesc.extent.height * textureDesc.extent.depth *
    textureDesc.arrayLayers

/-- Size-validation and conversion part of VKRenderSystem::WriteTexture, lines
429-457: when the host data's format class differs from the texture's native class,
an intermediate conversion buffer is produced and the caller's data size is checked
against the source-format size `imageSize * ImageFormatSize * DataTypeSize`;
otherwise the data is used as-is and the size is checked against the native
footprint. The returned boolean is the non-nullness of the resulting data pointer. -/
def VKRenderSystem.WriteTextureValidate (texture : VKTexture)
    (textureRegion : TextureRegion) (imageDesc : SrcImageDescriptor) :
    Except TransferError Bool :=
  let extent := textureRegion.extent
  let format := texture.format
  let imageSize := extent.width * extent.height * extent.depth
  let imageDataSize := GetMemoryFootprint format imageSize
  let formatAttribs := GetFormatAttribs format
  let intermediateData : Option (Nat → Color) :=
    if 0 < formatAttribs.bitSize ∧ formatAttribs.isCompressed = false then
      ConvertImageBuffer imageDesc formatAttribs.format formatAttribs.dataType
    else
      none
  match intermediateData with
  | some _ =>
      let srcImageDataSize :=
        imageSize * ImageFormatSize imageDesc.format * DataTypeSize imageDesc.dataType
      if AssertImageDataSize imageDesc.dataSize srcImageDataSize then Except.ok true
      else Except.error TransferError.ImageDataSizeMismatch
  | none =>
      if AssertImageDataSize imageDesc.dataSize imageDataSize then
        Except.ok imageDesc.data.isSome
      else Except.error TransferError.ImageDataSizeMismatch

/-- Event trace of VKRenderSystem::WriteTexture, lines 459-503, once validation has
passed: create and initialize a transient staging buffer sized to the native
footprint, record transition to TransferDst, buffer-to-image copy and transition to
ShaderReadOnly, flush once, and release the staging region. -/
def VKRenderSystem.WriteTextureEvents (texture : VKTexture) (textureRegion : TextureRegion)
    (imageDataNonNull : Bool) : List VKEvent :=
  let extent := textureRegion.extent
  let subresource := textureRegion.subresource
  let imageSize := extent.width * extent.height * extent.depth
  let imageDataSize := GetMemoryFootprint texture.format imageSize
  CreateStagingBufferAndInitEvents imageDataSize imageDataNonNull imageDataSize ++
    [VKEvent.transitionImageLayout .Undefined .TransferDstOptimal subresource,
     VKEvent.copyBufferToImage textureRegion.offset extent subresource,
     VKEvent.transitionImageLayout .TransferDstOptimal .ShaderReadOnlyOptimal subresource,
     VKEvent.flushCommandBuffer,
     VKEvent.releaseStagingRegion]

/-- VKRenderSystem::WriteTexture, lines 414-504: validation / conversion followed by
the staging upload sequence. -/
def VKRenderSystem.WriteTexture (texture : VKTexture) (textureRegion : TextureRegion)
    (imageDesc : SrcImageDescriptor) : Except TransferError (List VKEvent) :=
  (VKRenderSystem.WriteTextureValidate texture textureRegion imageDesc).map
    (VKRenderSystem.WriteTextureEvents texture textureRegion)

/-- Initial-data part of VKRenderSystem::CreateTexture, lines 284-335: the supplied
image data (possibly converted, with the size validation of the two branches), or a
generated clear-color buffer when no image data is given and NoInitialData is unset,
or no data at all. -/
def VKRenderSystem.CreateTextureInitialData (textureDesc : TextureDescriptor)
    (imageDesc : Option SrcImageDescriptor) :
    Except TransferError (Option (Nat → Color)) :=
  let imageSize := NumMipTexels0 textureDesc
  let initialDataSize := GetMemoryFootprint textureDesc.format imageSize
  let formatAttribs := GetFormatAttribs textureDesc.format
  match imageDesc with
  | some img =>
      let intermediateData : Option (Nat → Color) :=
        if 0 < formatAttribs.bitSize ∧ formatAttribs.isCompressed = false then
          ConvertImageBuffer img formatAttribs.format formatAttribs.dataType
        else
          none
      match intermediateData with
      | some buf =>
          let srcImageDataSize :=
            imageSize * ImageFormatSize img.format * DataTypeSize img.dataType
          if AssertImageDataSize img.dataSize srcImageDataSize then Except.ok (some buf)
          else Except.error TransferError.ImageDataSizeMismatch
      | none =>
          if AssertImageDataSize img.dataSize initialDataSize then Except.ok img.data
          else Except.error TransferError.ImageDataSizeMismatch
  | none =>
      if (textureDesc.miscFlags &&& MiscFlags.NoInitialData) = 0 then
        if 0 < formatAttribs.bitSize ∧ formatAttribs.isCompressed = false then
          Except.ok (some (GenerateImageBuffer formatAttribs.format formatAttribs.dataType
            imageSize textureDesc.clearValue.color))
        else
          -- AllocateByteBuffer with UninitializeTag: uninitialized contents,
          -- modelled by an arbitrary fixed value (no theorem depends on it)
          Except.ok (some (fun _ => 0))
      else
        Except.ok none

/-- Event trace of VKRenderSystem::CreateTexture, lines 337-403, once the initial
data has been determined: create and initialize a transient staging buffer, create
the device texture, record the layout transitions and the buffer-to-image copy over
the full subresource range, optionally record MIP-map generation, flush once,
release the staging region, and create the image view. -/
def VKRenderSystem.CreateTextureEvents (textureDesc : TextureDescriptor)
    (imageDescNonNull : Bool) (initialDataNonNull : Bool) : List VKEvent :=
  let imageSize := NumMipTexels0 textureDesc
  let initialDataSize := GetMemoryFootprint textureDesc.format imageSize
  let subresource : TextureSubresource :=
    { baseArrayLayer := 0, numArrayLayers := textureDesc.arrayLayers,
      baseMipLevel := 0, numMipLevels := textureDesc.mipLevels }
  CreateStagingBufferAndInitEvents initialDataSize initialDataNonNull initialDataSize ++
    [VKEvent.createTextureObject,
     VKEvent.transitionImageLayout .Undefined .TransferDstOptimal subresource,
     VKEvent.copyBufferToImage { x := 0, y := 0, z := 0 } textureDesc.extent subresource,
     VKEvent.transitionImageLayout .TransferDstOptimal .ShaderReadOnlyOptimal subresource] ++
    (if imageDescNonNull ∧ MustGenerateMipsOnCreate textureDesc then
      [VKEvent.generateMips subresource] else []) ++
    [VKEvent.flushCommandBuffer,
     VKEvent.releaseStagingRegion,
     VKEvent.createImageView]

/-- VKRenderSystem::CreateTexture, lines 282-404: initial-data determination
followed by the staging upload sequence. Returns the event trace together with the
initial-data buffer that was uploaded. -/
def VKRenderSystem.CreateTexture (textureDesc : TextureDescriptor)
    (imageDesc : Option SrcImageDescriptor) :
    Except TransferError (List VKEvent × Option (Nat → Color)) :=
  (VKRenderSystem.CreateTextureInitialData textureDesc imageDesc).map fun initialData =>
    (VKRenderSystem.CreateTextureEvents textureDesc imageDesc.isSome initialData.isSome,
     initialData)

/-- Commands recorded into the one-shot command buffer (as opposed to host-side
actions and memory management). -/
def isRecordedCmd : VKEvent → Bool
  | .transitionImageLayout _ _ _ => true
  | .copyBufferToImage _ _ _ => true
  | .generateMips _ => true
  | _ => false

/-- Subsequence of an event trace that was recorded into the command buffer. -/
def recordedCmds (events : List VKEvent) : List VKEvent :=
  events.filter isRecordedCmd

/-- Projection of a Vulkan texture-creation result onto its recorded command
sequence (and discarding the host buffers, so the value is decidable). -/
def createTextureRecorded (r : Except TransferError (List VKEvent × Option (Nat → Color))) :
    Option (List VKEvent) :=
  match r with
  | .ok (events, _) => some (recordedCmds events)
  | .error _ => none

/- ----- Direct3D 11 texture model ----- -/

/-- Position of a texel inside one subresource: x, y, z, signed as in a `D3D11_BOX`. -/
abbrev TexPos := Int × Int × Int

/-- Contents of a texture: MIP level, array layer and position to color value. -/
abbrev TexContents := Nat → Nat → TexPos → Color

/-- Half-open box of a subresource update (`CD3D11_BOX(left, top, front, right,
bottom, back)`). -/
structure D3DBox where
  left : Int
  top : Int
  front : Int
  right : Int
  bottom : Int
  back : Int
  deriving DecidableEq, Repr

/-- Membership of a position in a half-open box. -/
def D3DBox.containsPos (b : D3DBox) (p : TexPos) : Bool :=
  decide (b.left ≤ p.1 ∧ p.1 < b.right ∧ b.top ≤ p.2.1 ∧ p.2.1 < b.bottom ∧
    b.front ≤ p.2.2 ∧ p.2.2 < b.back)

/-- Row-major linear texel index of a position relative to the box origin, the order
in which `UpdateSubresource` consumes the source data. -/
def D3DBox.linearIndex (b : D3DBox) (p : TexPos) : Nat :=
  (((p.2.2 - b.front) * (b.bottom - b.top) + (p.2.1 - b.top)) * (b.right - b.left) +
    (p.1 - b.left)).toNat

/-- State of a Direct3D 11 texture: descriptor fields plus the observable texel
contents. -/
structure D3D11Texture where
  type : TextureType
  format : Format
  extent : Extent3D
  arrayLayers : Nat
  mipLevels : Nat
  contents : TexContents

/-- Modelled from the spec: `D3D11Texture::UpdateSubresource` (device-side
subresource update, not under `src/`) replaces the texels of the addressed MIP level
and array layer inside the box with the source image data, consumed in row-major
order, and leaves every other texel unchanged. A null data pointer is modelled as a
zero image. -/
def D3D11Texture.UpdateSubresource (texture : D3D11Texture) (mipLevel : Nat)
    (arrayLayer : Nat) (box : D3DBox) (imageDesc : SrcImageDescriptor) : D3D11Texture :=
  { texture with
    contents := fun m l p =>
      if m = mipLevel ∧ l = arrayLayer ∧ box.containsPos p then
        (imageDesc.data.getD (fun _ => 0)) (box.linearIndex p)
      else
        texture.contents m l p }

/-- Observable actions of the Direct3D 11 texture paths, in program order. -/
inductive D3DEvent where
  | createTextureObject
  | updateSubresource (mipLevel : Nat) (arrayLayer : Nat) (box : D3DBox)
  | generateMips
  deriving DecidableEq, Repr

/-- Per-layer update loop of D3D11RenderSystem::InitializeGpuTextureWithImage, lines
713-727: layer `i` is updated from the source data advanced by `i` layers (the
source advances its byte pointer by `bytesPerLayer`; with texel-indexed data this is
an index shift by the texels per layer). -/
def imageLayerLoop (texture : D3D11Texture) (box : D3DBox) (imageDesc : SrcImageDescriptor)
    (texelsPerLayer : Nat) : Nat → D3D11Texture × List D3DEvent
  | 0 => (texture, [])
  | n + 1 =>
      let shifted : SrcImageDescriptor :=
        { imageDesc with data := imageDesc.data.map (fun f i => f (i + n * texelsPerLayer)) }
      ((imageLayerLoop texture box imageDesc texelsPerLayer n).1.UpdateSubresource 0 n box
        shifted,
       (imageLayerLoop texture box imageDesc texelsPerLayer n).2 ++
        [D3DEvent.updateSubresource 0 n box])

/-- D3D11RenderSystem::InitializeGpuTextureWithImage, lines 690-727: reject image
data whose size is not a multiple of the layer count, otherwise update MIP level 0
of every array layer from consecutive slices of the source data. -/
def D3D11RenderSystem.InitializeGpuTextureWithImage (texture : D3D11Texture)
    (format : Format) (extent : Extent3D) (arrayLayers : Nat)
    (imageDesc : SrcImageDescriptor) :
    Except TransferError (D3D11Texture × List D3DEvent) :=
  if imageDesc.dataSize % arrayLayers ≠ 0 then
    Except.error TransferError.InvalidArgument
  else
    let texelsPerLayer := extent.width * extent.height * extent.depth
    let imageDescPerLayer := { imageDesc with dataSize := imageDesc.dataSize / arrayLayers }
    let box : D3DBox :=
      { left := 0, top := 0, front := 0,
        right := extent.width, bottom := extent.height, back := extent.depth }
    Except.ok (imageLayerLoop texture box imageDescPerLayer texelsPerLayer arrayLayers)

/-- Per-layer update loop of D3D11RenderSystem::InitializeGpuTextureWithClearValue,
lines 762-771: MIP level 0 of every array layer is filled from the generated
clear-color image buffer. -/
def clearLayerLoop (texture : D3D11Texture) (box : D3DBox)
    (imageDescDefault : SrcImageDescriptor) : Nat → D3D11Texture × List D3DEvent
  | 0 => (texture, [])
  | n + 1 =>
      ((clearLayerLoop texture box imageDescDefault n).1.UpdateSubresource 0 n box
        imageDescDefault,
       (clearLayerLoop texture box imageDescDefault n).2 ++
        [D3DEvent.updateSubresource 0 n box])

/-- D3D11RenderSystem::InitializeGpuTextureWithClearValue, lines 729-774: for a
depth-stencil format nothing happens (source TODO); otherwise, when the format has a
nonzero bit size, a default image buffer filled with the clear color is generated
and MIP level 0 of every array layer is updated with it. -/
def D3D11RenderSystem.InitializeGpuTextureWithClearValue (texture : D3D11Texture)
    (format : Format) (extent : Extent3D) (arrayLayers : Nat) (clearValue : ClearValue) :
    D3D11Texture × List D3DEvent :=
  if (GetFormatAttribs format).isDepthStencil then
    (texture, [])
  else
    let formatDesc := GetFormatAttribs format
    if 0 < formatDesc.bitSize then
      let imageSize := extent.width * extent.height * extent.depth
      let imageBuffer := GenerateImageBuffer formatDesc.format formatDesc.dataType imageSize
        clearValue.color
      let imageDescDefault : SrcImageDescriptor :=
        { format := formatDesc.format, dataType := formatDesc.dataType,
          data := some imageBuffer,
          dataSize := GetMemoryFootprintImage formatDesc.format formatDesc.dataType imageSize }
      let box : D3DBox :=
        { left := 0, top := 0, front := 0,
          right := extent.width, bottom := extent.height, back := extent.depth }
      clearLayerLoop texture box imageDescDefault arrayLayers
    else
      (texture, [])

/-- D3D11RenderSystem::InitializeGpuTexture, lines 661-688: initialize from the
image descriptor when supplied, from the clear value when NoInitialData is unset,
and not at all otherwise. -/
def D3D11RenderSystem.InitializeGpuTexture (texture : D3D11Texture)
    (textureDesc : TextureDescriptor) (imageDesc : Option SrcImageDescriptor) :
    Except TransferError (D3D11Texture × List D3DEvent) :=
  match imageDesc with
  | some img =>
      D3D11RenderSystem.InitializeGpuTextureWithImage texture textureDesc.format
        textureDesc.extent textureDesc.arrayLayers img
  | none =>
      if (textureDesc.miscFlags &&& MiscFlags.NoInitialData) = 0 then
        Except.ok (D3D11RenderSystem.InitializeGpuTextureWithClearValue texture
          textureDesc.format textureDesc.extent textureDesc.arrayLayers
          textureDesc.clearValue)
      else
        Except.ok (texture, [])

/-- D3D11RenderSystem::CreateTexture, lines 199-212: create the device texture
object (with the as-yet-undefined device memory contents `uninitContents`),
initialize it with or without image data, and generate MIP-maps when requested. The
event list records what happened before a validation failure. -/
def D3D11RenderSystem.CreateTexture (uninitContents : TexContents)
    (textureDesc : TextureDescriptor) (imageDesc : Option SrcImageDescriptor) :
    List D3DEvent × Except TransferError D3D11Texture :=
  let texture : D3D11Texture :=
    { type := textureDesc.type, format := textureDesc.format, extent := textureDesc.extent,
      arrayLayers := textureDesc.arrayLayers, mipLevels := textureDesc.mipLevels,
      contents := uninitContents }
  match D3D11RenderSystem.InitializeGpuTexture texture textureDesc imageDesc with
  | Except.error e => ([D3DEvent.createTextureObject], Except.error e)
  | Except.ok r =>
      ( [D3DEvent.createTextureObject] ++ r.2 ++
          (if imageDesc.isSome ∧ MustGenerateMipsOnCreate textureDesc then
            [D3DEvent.generateMips] else []),
        Except.ok r.1 )

/-- Box addressed by a subresource write to a 2D-kind texture (WriteTexture lines
250-257): the region's x/y rectangle, with the layer count as the box depth. -/
def writeBox2D (textureRegion : TextureRegion) : D3DBox :=
  { left := textureRegion.offset.x, top := textureRegion.offset.y, front := 0,
    right := textureRegion.offset.x + (textureRegion.extent.width : Int),
    bottom := textureRegion.offset.y + (textureRegion.extent.height : Int),
    back := (textureRegion.subresource.numArrayLayers : Int) }

/-- D3D11RenderSystem::WriteTexture, lines 219-283: dispatch over the texture type,
updating the addressed subresource with the region's box; multisampled types fall
through without any action. -/
def D3D11RenderSystem.WriteTexture (texture : D3D11Texture)
    (textureRegion : TextureRegion) (imageDesc : SrcImageDescriptor) :
    D3D11Texture × List D3DEvent :=
  match texture.type with
  | .Texture1D | .Texture1DArray =>
      let box : D3DBox :=
        { left := textureRegion.offset.x, top := 0, front := 0,
          right := textureRegion.offset.x + (textureRegion.extent.width : Int),
          bottom := (textureRegion.subresource.numArrayLayers : Int), back := 1 }
      (texture.UpdateSubresource textureRegion.subresource.baseMipLevel
        textureRegion.subresource.baseArrayLayer box imageDesc,
       [D3DEvent.updateSubresource textureRegion.subresource.baseMipLevel
        textureRegion.subresource.baseArrayLayer box])
  | .Texture2D | .TextureCube | .Texture2DArray | .TextureCubeArray =>
      (texture.UpdateSubresource textureRegion.subresource.baseMipLevel
        textureRegion.subresource.baseArrayLayer (writeBox2D textureRegion) imageDesc,
       [D3DEvent.updateSubresource textureRegion.subresource.baseMipLevel
        textureRegion.subresource.baseArrayLayer (writeBox2D textureRegion)])
  | .Texture2DMS | .Texture2DMSArray =>
      (texture, [])
  | .Texture3D =>
      let box : D3DBox :=
        { left := textureRegion.offset.x, top := textureRegion.offset.y,
          front := textureRegion.offset.z,
          right := textureRegion.offset.x + (textureRegion.extent.width : Int),
          bottom := textureRegion.offset.y + (textureRegion.extent.height : Int),
          back := textureRegion.offset.z + (textureRegion.extent.depth : Int) }
      (texture.UpdateSubresource textureRegion.subresource.baseMipLevel 0 box imageDesc,
       [D3DEvent.updateSubresource textureRegion.subresource.baseMipLevel 0 box])

/- ----- Claim theorems (configuration and truncation) ----- -/

/-- C8: when the render system is constructed without a Vulkan renderer configuration,
the device memory manager receives a chunk granularity of defaultly 1 MiB
(1024*1024 bytes) and fragmentation reduction disabled; when a configuration is
supplied, its `minDeviceMemoryAllocationSize` and `reduceDeviceMemoryFragmentation`
values are used; the knobs record contains exactly these two tunables. -/
theorem vk_memoryManager_default_knobs :
    VKRenderSystem.makeDeviceMemoryManager { rendererConfig := none } =
      { minAllocationSize := 1048576, reduceFragmentation := false } ∧
    ∀ config : RendererConfigurationVulkan,
      VKRenderSystem.makeDeviceMemoryManager { rendererConfig := some config } =
        { minAllocationSize := config.minDeviceMemoryAllocationSize,
          reduceFragmentation := config.reduceDeviceMemoryFragmentation } := by
  exact ⟨rfl, fun config => rfl⟩

/-- C10: the Direct3D 11 backend truncates the 64-bit `offset` and `dataSize`
arguments of WriteBuffer and ReadBuffer to 32-bit unsigned values (reduction modulo
2^32) before forwarding them, and for any argument at or above 2^32 the forwarded
value differs from the original while no failure is raised (both functions are
total). -/
theorem d3d11_buffer_args_truncated (offset dataSize : Nat) :
    (D3D11RenderSystem.WriteBuffer offset dataSize =
        { dataSize := dataSize % 4294967296, offset := offset % 4294967296 } ∧
      D3D11RenderSystem.ReadBuffer offset dataSize =
        { dataSize := dataSize % 4294967296, offset := offset % 4294967296 }) ∧
    (4294967296 ≤ offset → (D3D11RenderSystem.WriteBuffer offset dataSize).offset ≠ offset) ∧
    (4294967296 ≤ dataSize → (D3D11RenderSystem.WriteBuffer offset dataSize).dataSize ≠ dataSize) := by
  refine ⟨⟨rfl, rfl⟩, ?_, ?_⟩
  · intro h
    simp only [D3D11RenderSystem.WriteBuffer, toUINT]
    omega
  · intro h
    simp only [D3D11RenderSystem.WriteBuffer, toUINT]
    omega

/-- Witness for C10 at a concrete wrapped input: offset 2^32 + 7 is forwarded as 7. -/
theorem d3d11_buffer_args_truncated_witness :
    (D3D11RenderSystem.WriteBuffer 4294967303 12).offset ≠ 4294967303 :=
  (d3d11_buffer_args_truncated 4294967303 12).2.1 (by norm_num)

/-- C1: for every Vulkan WriteBuffer call (with a non-null data pointer and a
positive size), if the buffer holds a retained staging buffer then the host data is
written into the retained staging buffer at the target offset and a device-side copy
of `dataSize` bytes is recorded from staging offset `offset` to destination offset
`offset`; otherwise a transient staging buffer sized to `dataSize` is created and
initialized with the data, a device-side copy from staging offset 0 to destination
offset `offset` is recorded, and the transient staging region is released before the
call returns. -/
theorem vk_writeBuffer_staging_protocol (buffer : VKBuffer) (offset : Nat)
    (data : Option Unit) (dataSize : Nat) (hdata : data.isSome) (hsize : 0 < dataSize) :
    (buffer.hasStagingBuffer = true →
      VKRenderSystem.WriteBuffer buffer offset data dataSize =
        [VKEvent.hostWriteBuffer .retainedStaging dataSize offset,
         VKEvent.copyBuffer .retainedStaging .hardwareBuffer dataSize offset offset]) ∧
    (buffer.hasStagingBuffer = false →
      VKRenderSystem.WriteBuffer buffer offset data dataSize =
        [VKEvent.createStagingBuffer dataSize,
         VKEvent.hostWriteBuffer .transientStaging dataSize 0,
         VKEvent.copyBuffer .transientStaging .hardwareBuffer dataSize 0 offset,
         VKEvent.releaseStagingRegion]) := by
  constructor <;> intro h <;>
    simp [VKRenderSystem.WriteBuffer, CreateStagingBufferAndInitEvents, h, hdata, hsize]

/-- Witness for C1: a concrete call without a retained staging buffer produces the
transient-staging event sequence. -/
theorem vk_writeBuffer_staging_protocol_witness :
    VKRenderSystem.WriteBuffer { size := 16, hasStagingBuffer := false } 4 (some ()) 8 =
      [VKEvent.createStagingBuffer 8,
       VKEvent.hostWriteBuffer .transientStaging 8 0,
       VKEvent.copyBuffer .transientStaging .hardwareBuffer 8 0 4,
       VKEvent.releaseStagingRegion] :=
  (vk_writeBuffer_staging_protocol { size := 16, hasStagingBuffer := false } 4 (some ()) 8
    rfl (by decide)).2 rfl

/-- C2: a Vulkan buffer retains its staging buffer if and only if the descriptor has
a CPU-access flag or the DynamicUsage misc flag set; for every other descriptor the
staging region is released (as the last action) before CreateBuffer returns, and a
retained staging buffer's region is not released during CreateBuffer. -/
theorem vk_createBuffer_staging_retention (bufferDesc : BufferDescriptor)
    (initialData : Option Unit) :
    ((VKRenderSystem.CreateBuffer bufferDesc initialData).1.hasStagingBuffer = true ↔
      (bufferDesc.cpuAccessFlags ≠ 0 ∨ (bufferDesc.miscFlags &&& MiscFlags.DynamicUsage) ≠ 0)) ∧
    (bufferDesc.cpuAccessFlags = 0 ∧ (bufferDesc.miscFlags &&& MiscFlags.DynamicUsage) = 0 →
      (VKRenderSystem.CreateBuffer bufferDesc initialData).2.getLast? =
        some VKEvent.releaseStagingRegion) ∧
    (bufferDesc.cpuAccessFlags ≠ 0 ∨ (bufferDesc.miscFlags &&& MiscFlags.DynamicUsage) ≠ 0 →
      VKEvent.releaseStagingRegion ∉ (VKRenderSystem.CreateBuffer bufferDesc initialData).2) := by
  refine ⟨?_, ?_, ?_⟩
  · simp [VKRenderSystem.CreateBuffer]
  · rintro ⟨h1, h2⟩
    simp only [VKRenderSystem.CreateBuffer, CreateStagingBufferAndInitEvents, h1, h2]
    split <;> simp
  · intro h
    have hr : (bufferDesc.cpuAccessFlags != 0 ||
        (bufferDesc.miscFlags &&& MiscFlags.DynamicUsage) != 0) = true := by
      rcases h with h | h <;> simp [h]
    simp only [VKRenderSystem.CreateBuffer, CreateStagingBufferAndInitEvents, hr]
    split <;> simp

/-- Witness for C2: a descriptor with neither CPU access nor dynamic usage releases
its staging region as the final action of CreateBuffer. -/
theorem vk_createBuffer_staging_retention_witness :
    (VKRenderSystem.CreateBuffer { size := 8, cpuAccessFlags := 0, miscFlags := 0 } none).2.getLast? =
      some VKEvent.releaseStagingRegion :=
  (vk_createBuffer_staging_retention { size := 8, cpuAccessFlags := 0, miscFlags := 0 } none).2.1
    ⟨rfl, rfl⟩

/-- C9: every Vulkan CreateBuffer call creates a host-visible staging buffer sized to
the full buffer size and performs a device-side copy of the full size into the
device-local buffer; the host-side write into the staging buffer occurs exactly when
the data pointer is non-null and the size is positive, so a null `initialData` still
performs the full device-side copy (of the staging buffer's uninitialized contents)
while skipping only the host write. -/
theorem vk_createBuffer_full_staging_copy (bufferDesc : BufferDescriptor)
    (initialData : Option Unit) :
    ((VKRenderSystem.CreateBuffer bufferDesc initialData).2 =
      [VKEvent.createStagingBuffer bufferDesc.size] ++
        (if initialData.isSome ∧ 0 < bufferDesc.size then
          [VKEvent.hostWriteBuffer .transientStaging bufferDesc.size 0] else []) ++
        [VKEvent.createBufferObject bufferDesc.size,
         VKEvent.allocDeviceLocalMemory,
         VKEvent.copyBuffer .transientStaging .hardwareBuffer bufferDesc.size 0 0] ++
        (if bufferDesc.cpuAccessFlags ≠ 0 ∨ (bufferDesc.miscFlags &&& MiscFlags.DynamicUsage) ≠ 0 then
          [VKEvent.takeStagingBuffer] else [VKEvent.releaseStagingRegion])) ∧
    (initialData = none →
      VKEvent.copyBuffer .transientStaging .hardwareBuffer bufferDesc.size 0 0 ∈
          (VKRenderSystem.CreateBuffer bufferDesc initialData).2 ∧
        ∀ target ds off, VKEvent.hostWriteBuffer target ds off ∉
          (VKRenderSystem.CreateBuffer bufferDesc initialData).2) := by
  constructor
  · by_cases hr : bufferDesc.cpuAccessFlags ≠ 0 ∨ (bufferDesc.miscFlags &&& MiscFlags.DynamicUsage) ≠ 0
    · have hb : (bufferDesc.cpuAccessFlags != 0 ||
          (bufferDesc.miscFlags &&& MiscFlags.DynamicUsage) != 0) = true := by
        rcases hr with h | h <;> simp [h]
      simp [VKRenderSystem.CreateBuffer, CreateStagingBufferAndInitEvents, hb, hr]
    · have hP : ¬(bufferDesc.cpuAccessFlags ≠ 0 ∨
          (bufferDesc.miscFlags &&& MiscFlags.DynamicUsage) ≠ 0) := hr
      push_neg at hr
      have hb : (bufferDesc.cpuAccessFlags != 0 ||
          (bufferDesc.miscFlags &&& MiscFlags.DynamicUsage) != 0) = false := by
        simp [hr.1, hr.2]
      simp [VKRenderSystem.CreateBuffer, CreateStagingBufferAndInitEvents, hb, hP]
  · intro hnone
    subst hnone
    refine ⟨?_, ?_⟩
    · simp [VKRenderSystem.CreateBuffer]
    · intro target ds off
      simp [VKRenderSystem.CreateBuffer, CreateStagingBufferAndInitEvents]
      split <;> simp

/-- Witness for C9: creating a buffer with null initial data still performs the full
device-side copy and no host write. -/
theorem vk_createBuffer_full_staging_copy_witness :
    VKEvent.copyBuffer .transientStaging .hardwareBuffer 32 0 0 ∈
      (VKRenderSystem.CreateBuffer { size := 32, cpuAccessFlags := 0, miscFlags := 0 } none).2 :=
  ((vk_createBuffer_full_staging_copy { size := 32, cpuAccessFlags := 0, miscFlags := 0 } none).2
    rfl).1

/-- Helper: a successful `Except.map` comes from a successful computation. -/
theorem except_map_ok {ε α β} {f : α → β} {e : Except ε α} {b : β}
    (h : e.map f = Except.ok b) : ∃ a, e = Except.ok a ∧ b = f a := by
  cases e with
  | error err => simp [Except.map] at h
  | ok a =>
      refine ⟨a, rfl, ?_⟩
      simpa [Except.map] using h.symm

/-- Helper: whether a transfer call succeeded. -/
def transferOk {α} (r : Except TransferError α) : Bool :=
  match r with
  | .ok _ => true
  | .error _ => false

/-- C3 counterexample: creating a 2x2 RGBA8 texture with initial data, two MIP
levels and the GenerateMips misc flag records four commands (the two transitions,
the buffer-to-image copy, and MIP-map generation), so the recorded sequence is not
exactly the three commands of the claim. -/
theorem vk_texture_three_cmds_cex :
    createTextureRecorded
        (VKRenderSystem.CreateTexture
          { type := .Texture2D, format := .RGBA8UNorm,
            extent := { width := 2, height := 2, depth := 1 },
            arrayLayers := 1, mipLevels := 2, miscFlags := MiscFlags.GenerateMips,
            clearValue := { color := 0 } }
          (some { format := .RGBA, dataType := .UInt8, data := some (fun _ => 0), dataSize := 16 })) =
      some
        [VKEvent.transitionImageLayout .Undefined .TransferDstOptimal
          { baseArrayLayer := 0, numArrayLayers := 1, baseMipLevel := 0, numMipLevels := 2 },
         VKEvent.copyBufferToImage { x := 0, y := 0, z := 0 }
          { width := 2, height := 2, depth := 1 }
          { baseArrayLayer := 0, numArrayLayers := 1, baseMipLevel := 0, numMipLevels := 2 },
         VKEvent.transitionImageLayout .TransferDstOptimal .ShaderReadOnlyOptimal
          { baseArrayLayer := 0, numArrayLayers := 1, baseMipLevel := 0, numMipLevels := 2 },
         VKEvent.generateMips
          { baseArrayLayer := 0, numArrayLayers := 1, baseMipLevel := 0, numMipLevels := 2 }] ∧
    (createTextureRecorded
        (VKRenderSystem.CreateTexture
          { type := .Texture2D, format := .RGBA8UNorm,
            extent := { width := 2, height := 2, depth := 1 },
            arrayLayers := 1, mipLevels := 2, miscFlags := MiscFlags.GenerateMips,
            clearValue := { color := 0 } }
          (some { format := .RGBA, dataType := .UInt8, data := some (fun _ => 0),
                  dataSize := 16 }))).map List.length ≠ some 3 := by
  constructor
  · rfl
  · decide

/-- C3 (amended): for every successful Vulkan WriteTexture call the recorded command
sequence is exactly transition Undefined to TransferDst, buffer-to-image copy,
transition TransferDst to ShaderReadOnly; for every successful texture creation the
same three commands are recorded over the full subresource range, followed by a
GenerateMips command exactly when initial data is supplied and MIP-map generation is
requested; in both cases exactly one flush occurs, it comes after all recorded
commands, and the transient staging region is released only after the flush. -/
theorem vk_texture_upload_command_sequence :
    (∀ (texture : VKTexture) (textureRegion : TextureRegion) (imageDesc : SrcImageDescriptor)
        (events : List VKEvent),
      VKRenderSystem.WriteTexture texture textureRegion imageDesc = Except.ok events →
      recordedCmds events =
          [VKEvent.transitionImageLayout .Undefined .TransferDstOptimal textureRegion.subresource,
           VKEvent.copyBufferToImage textureRegion.offset textureRegion.extent
            textureRegion.subresource,
           VKEvent.transitionImageLayout .TransferDstOptimal .ShaderReadOnlyOptimal
            textureRegion.subresource] ∧
        events.count VKEvent.flushCommandBuffer = 1 ∧
        List.IsSuffix
          [VKEvent.transitionImageLayout .TransferDstOptimal .ShaderReadOnlyOptimal
            textureRegion.subresource,
           VKEvent.flushCommandBuffer, VKEvent.releaseStagingRegion] events) ∧
    (∀ (textureDesc : TextureDescriptor) (imageDesc : Option SrcImageDescriptor)
        (events : List VKEvent) (initialData : Option (Nat → Color)),
      VKRenderSystem.CreateTexture textureDesc imageDesc = Except.ok (events, initialData) →
      recordedCmds events =
          [VKEvent.transitionImageLayout .Undefined .TransferDstOptimal
            { baseArrayLayer := 0, numArrayLayers := textureDesc.arrayLayers,
              baseMipLevel := 0, numMipLevels := textureDesc.mipLevels },
           VKEvent.copyBufferToImage { x := 0, y := 0, z := 0 } textureDesc.extent
            { baseArrayLayer := 0, numArrayLayers := textureDesc.arrayLayers,
              baseMipLevel := 0, numMipLevels := textureDesc.mipLevels },
           VKEvent.transitionImageLayout .TransferDstOptimal .ShaderReadOnlyOptimal
            { baseArrayLayer := 0, numArrayLayers := textureDesc.arrayLayers,
              baseMipLevel := 0, numMipLevels := textureDesc.mipLevels }] ++
          (if imageDesc.isSome ∧ MustGenerateMipsOnCreate textureDesc then
            [VKEvent.generateMips
              { baseArrayLayer := 0, numArrayLayers := textureDesc.arrayLayers,
                baseMipLevel := 0, numMipLevels := textureDesc.mipLevels }]
          else []) ∧
        events.count VKEvent.flushCommandBuffer = 1 ∧
        List.IsSuffix
          [VKEvent.flushCommandBuffer, VKEvent.releaseStagingRegion, VKEvent.createImageView]
          events) := by
  constructor
  · intro texture textureRegion imageDesc events h
    obtain ⟨b, hb, rfl⟩ := except_map_ok h
    refine ⟨?_, ?_, ?_⟩
    · simp only [VKRenderSystem.WriteTextureEvents, CreateStagingBufferAndInitEvents,
        recordedCmds]
      split <;> simp [isRecordedCmd]
    · simp only [VKRenderSystem.WriteTextureEvents, CreateStagingBufferAndInitEvents]
      split <;> simp [List.count_cons, List.count_append]
    · refine ⟨CreateStagingBufferAndInitEvents
        (GetMemoryFootprint texture.format
          (textureRegion.extent.width * textureRegion.extent.height * textureRegion.extent.depth))
        b
        (GetMemoryFootprint texture.format
          (textureRegion.extent.width * textureRegion.extent.height * textureRegion.extent.depth)) ++
        [VKEvent.transitionImageLayout .Undefined .TransferDstOptimal textureRegion.subresource,
         VKEvent.copyBufferToImage textureRegion.offset textureRegion.extent
          textureRegion.subresource], ?_⟩
      simp [VKRenderSystem.WriteTextureEvents]
  · intro textureDesc imageDesc events initialData h
    obtain ⟨d, hd, hpair⟩ := except_map_ok h
    injection hpair with h1 h2
    subst h1
    subst h2
    refine ⟨?_, ?_, ?_⟩
    · simp only [VKRenderSystem.CreateTextureEvents, CreateStagingBufferAndInitEvents,
        recordedCmds]
      split <;> split <;> simp [isRecordedCmd]
    · simp only [VKRenderSystem.CreateTextureEvents, CreateStagingBufferAndInitEvents]
      split <;> split <;> simp [List.count_cons, List.count_append]
    · refine ⟨CreateStagingBufferAndInitEvents
        (GetMemoryFootprint textureDesc.format (NumMipTexels0 textureDesc))
        initialData.isSome
        (GetMemoryFootprint textureDesc.format (NumMipTexels0 textureDesc)) ++
        [VKEvent.createTextureObject,
         VKEvent.transitionImageLayout .Undefined .TransferDstOptimal
          { baseArrayLayer := 0, numArrayLayers := textureDesc.arrayLayers,
            baseMipLevel := 0, numMipLevels := textureDesc.mipLevels },
         VKEvent.copyBufferToImage { x := 0, y := 0, z := 0 } textureDesc.extent
          { baseArrayLayer := 0, numArrayLayers := textureDesc.arrayLayers,
            baseMipLevel := 0, numMipLevels := textureDesc.mipLevels },
         VKEvent.transitionImageLayout .TransferDstOptimal .ShaderReadOnlyOptimal
          { baseArrayLayer := 0, numArrayLayers := textureDesc.arrayLayers,
            baseMipLevel := 0, numMipLevels := textureDesc.mipLevels }] ++
        (if imageDesc.isSome ∧ MustGenerateMipsOnCreate textureDesc then
          [VKEvent.generateMips
            { baseArrayLayer := 0, numArrayLayers := textureDesc.arrayLayers,
              baseMipLevel := 0, numMipLevels := textureDesc.mipLevels }]
        else []), ?_⟩
      simp [VKRenderSystem.CreateTextureEvents]

/-- Witness for C3 (amended) at a concrete successful WriteTexture call. -/
theorem vk_texture_upload_command_sequence_witness :
    recordedCmds
        [VKEvent.createStagingBuffer 16, VKEvent.hostWriteBuffer .transientStaging 16 0,
         VKEvent.transitionImageLayout .Undefined .TransferDstOptimal
          { baseArrayLayer := 0, numArrayLayers := 1, baseMipLevel := 0, numMipLevels := 1 },
         VKEvent.copyBufferToImage { x := 0, y := 0, z := 0 }
          { width := 2, height := 2, depth := 1 }
          { baseArrayLayer := 0, numArrayLayers := 1, baseMipLevel := 0, numMipLevels := 1 },
         VKEvent.transitionImageLayout .TransferDstOptimal .ShaderReadOnlyOptimal
          { baseArrayLayer := 0, numArrayLayers := 1, baseMipLevel := 0, numMipLevels := 1 },
         VKEvent.flushCommandBuffer, VKEvent.releaseStagingRegion] =
      [VKEvent.transitionImageLayout .Undefined .TransferDstOptimal
        { baseArrayLayer := 0, numArrayLayers := 1, baseMipLevel := 0, numMipLevels := 1 },
       VKEvent.copyBufferToImage { x := 0, y := 0, z := 0 }
        { width := 2, height := 2, depth := 1 }
        { baseArrayLayer := 0, numArrayLayers := 1, baseMipLevel := 0, numMipLevels := 1 },
       VKEvent.transitionImageLayout .TransferDstOptimal .ShaderReadOnlyOptimal
        { baseArrayLayer := 0, numArrayLayers := 1, baseMipLevel := 0, numMipLevels := 1 }] :=
  (vk_texture_upload_command_sequence.1
    { format := .RGBA8UNorm, numArrayLayers := 1, numMipLevels := 1 }
    { subresource := { baseArrayLayer := 0, numArrayLayers := 1, baseMipLevel := 0, numMipLevels := 1 },
      offset := { x := 0, y := 0, z := 0 },
      extent := { width := 2, height := 2, depth := 1 } }
    { format := .RGBA, dataType := .UInt8, data := some (fun _ => 0), dataSize := 16 }
    _ rfl).1

/-- C4 counterexample: writing a 2x2 region of an RGBA8 texture from RGB/UInt8 host
data (which requires conversion) with a declared data size of 12 bytes succeeds,
even though 12 is smaller than the converted size of 16 bytes, against which the
validation would have rejected it; the code validates against the source-format
size instead. -/
theorem vk_writeTexture_converted_size_cex :
    (ConvertImageBuffer
        { format := .RGB, dataType := .UInt8, data := some (fun _ => 0), dataSize := 12 }
        .RGBA .UInt8).isSome = true ∧
    (12 : Nat) < GetMemoryFootprint .RGBA8UNorm (2 * 2 * 1) ∧
    AssertImageDataSize 12 (GetMemoryFootprint .RGBA8UNorm (2 * 2 * 1)) = false ∧
    transferOk
        (VKRenderSystem.WriteTexture
          { format := .RGBA8UNorm, numArrayLayers := 1, numMipLevels := 1 }
          { subresource := { baseArrayLayer := 0, numArrayLayers := 1, baseMipLevel := 0, numMipLevels := 1 },
            offset := { x := 0, y := 0, z := 0 },
            extent := { width := 2, height := 2, depth := 1 } }
          { format := .RGB, dataType := .UInt8, data := some (fun _ => 0), dataSize := 12 }) =
      true := by
  exact ⟨rfl, by decide, by decide, rfl⟩

/-- C4 (amended): for every texture write whose source format class requires
conversion, the caller-supplied data size is validated against the expected
source-format data size (texel count times source components times component size),
not the converted native size: the call fails with ImageDataSizeMismatch exactly
when the supplied size is below the source-format size, and the failure precludes
every device-side event. -/
theorem vk_writeTexture_conversion_validation (texture : VKTexture)
    (textureRegion : TextureRegion) (imageDesc : SrcImageDescriptor)
    (hfmt : 0 < (GetFormatAttribs texture.format).bitSize ∧
      (GetFormatAttribs texture.format).isCompressed = false)
    (hconv : (ConvertImageBuffer imageDesc (GetFormatAttribs texture.format).format
        (GetFormatAttribs texture.format).dataType).isSome = true) :
    VKRenderSystem.WriteTexture texture textureRegion imageDesc =
        Except.error TransferError.ImageDataSizeMismatch ↔
      imageDesc.dataSize <
        textureRegion.extent.width * textureRegion.extent.height * textureRegion.extent.depth *
          ImageFormatSize imageDesc.format * DataTypeSize imageDesc.dataType := by
  obtain ⟨buf, hbuf⟩ := Option.isSome_iff_exists.mp hconv
  simp only [VKRenderSystem.WriteTexture, VKRenderSystem.WriteTextureValidate]
  rw [if_pos hfmt, hbuf]
  by_cases hA : AssertImageDataSize imageDesc.dataSize
      (textureRegion.extent.width * textureRegion.extent.height * textureRegion.extent.depth *
        ImageFormatSize imageDesc.format * DataTypeSize imageDesc.dataType) = true
  · rw [if_pos hA]
    simp only [AssertImageDataSize, decide_eq_true_eq] at hA
    simp [Except.map]
    omega
  · rw [if_neg hA]
    simp only [AssertImageDataSize, decide_eq_true_eq] at hA
    simp [Except.map]
    omega

/-- Witness for C4 (amended): a conversion-requiring write with a 5-byte declared
size (below the 12-byte source-format size) fails with ImageDataSizeMismatch. -/
theorem vk_writeTexture_conversion_validation_witness :
    VKRenderSystem.WriteTexture
        { format := .RGBA8UNorm, numArrayLayers := 1, numMipLevels := 1 }
        { subresource := { baseArrayLayer := 0, numArrayLayers := 1, baseMipLevel := 0, numMipLevels := 1 },
          offset := { x := 0, y := 0, z := 0 },
          extent := { width := 2, height := 2, depth := 1 } }
        { format := .RGB, dataType := .UInt8, data := some (fun _ => 0), dataSize := 5 } =
      Except.error TransferError.ImageDataSizeMismatch :=
  (vk_writeTexture_conversion_validation
    { format := .RGBA8UNorm, numArrayLayers := 1, numMipLevels := 1 }
    { subresource := { baseArrayLayer := 0, numArrayLayers := 1, baseMipLevel := 0, numMipLevels := 1 },
      offset := { x := 0, y := 0, z := 0 },
      extent := { width := 2, height := 2, depth := 1 } }
    { format := .RGB, dataType := .UInt8, data := some (fun _ => 0), dataSize := 5 }
    ⟨by decide, rfl⟩ rfl).mpr (by decide)

/-- Helper: the error of a texture-creation result, if any. -/
def textureError (r : Except TransferError D3D11Texture) : Option TransferError :=
  match r with
  | .ok _ => none
  | .error e => some e

/-- C7: a Direct3D 11 WriteTexture call on a multisampled texture type performs no
subresource update and raises no error: the texture is returned unchanged and no
action is taken. -/
theorem d3d11_writeTexture_multisample_noop (texture : D3D11Texture)
    (textureRegion : TextureRegion) (imageDesc : SrcImageDescriptor)
    (hms : texture.type = TextureType.Texture2DMS ∨
      texture.type = TextureType.Texture2DMSArray) :
    D3D11RenderSystem.WriteTexture texture textureRegion imageDesc = (texture, []) := by
  rcases hms with h | h <;>
    · unfold D3D11RenderSystem.WriteTexture
      rw [h]

/-- Witness for C7: a concrete multisampled texture is left unchanged. -/
theorem d3d11_writeTexture_multisample_noop_witness :
    D3D11RenderSystem.WriteTexture
        { type := .Texture2DMS, format := .RGBA8UNorm,
          extent := { width := 2, height := 2, depth := 1 },
          arrayLayers := 1, mipLevels := 1, contents := fun _ _ _ => 0 }
        { subresource := { baseArrayLayer := 0, numArrayLayers := 1, baseMipLevel := 0, numMipLevels := 1 },
          offset := { x := 0, y := 0, z := 0 },
          extent := { width := 2, height := 2, depth := 1 } }
        { format := .RGBA, dataType := .UInt8, data := some (fun _ => 3), dataSize := 16 } =
      ({ type := .Texture2DMS, format := .RGBA8UNorm,
         extent := { width := 2, height := 2, depth := 1 },
         arrayLayers := 1, mipLevels := 1, contents := fun _ _ _ => 0 }, []) :=
  d3d11_writeTexture_multisample_noop
    { type := .Texture2DMS, format := .RGBA8UNorm,
      extent := { width := 2, height := 2, depth := 1 },
      arrayLayers := 1, mipLevels := 1, contents := fun _ _ _ => 0 }
    { subresource := { baseArrayLayer := 0, numArrayLayers := 1, baseMipLevel := 0, numMipLevels := 1 },
      offset := { x := 0, y := 0, z := 0 },
      extent := { width := 2, height := 2, depth := 1 } }
    { format := .RGBA, dataType := .UInt8, data := some (fun _ => 3), dataSize := 16 }
    (Or.inl rfl)

/-- C5 counterexample: creating a 2-layer texture with 5 bytes of initial data fails
with InvalidArgument, but the device texture object has already been created when
the validation runs, so the failure does not precede every device call. -/
theorem d3d11_createTexture_validation_order_cex :
    (D3D11RenderSystem.CreateTexture (fun _ _ _ => 0)
        { type := .Texture2D, format := .RGBA8UNorm,
          extent := { width := 2, height := 2, depth := 1 },
          arrayLayers := 2, mipLevels := 1, miscFlags := 0, clearValue := { color := 0 } }
        (some { format := .RGBA, dataType := .UInt8, data := some (fun _ => 0),
                dataSize := 5 })).1 =
      [D3DEvent.createTextureObject] ∧
    textureError
        (D3D11RenderSystem.CreateTexture (fun _ _ _ => 0)
          { type := .Texture2D, format := .RGBA8UNorm,
            extent := { width := 2, height := 2, depth := 1 },
            arrayLayers := 2, mipLevels := 1, miscFlags := 0, clearValue := { color := 0 } }
          (some { format := .RGBA, dataType := .UInt8, data := some (fun _ => 0),
                  dataSize := 5 })).2 =
      some TransferError.InvalidArgument := by
  exact ⟨rfl, rfl⟩

/-- C5 (amended): creating a Direct3D 11 texture over multiple array layers with
initial image data whose size is not a multiple of the layer count fails with
InvalidArgument before any subresource update is performed; the only device action
preceding the validation is the creation of the texture object itself. -/
theorem d3d11_createTexture_layer_divisibility (uninitContents : TexContents)
    (textureDesc : TextureDescriptor) (imageDesc : SrcImageDescriptor)
    (hmulti : 1 < textureDesc.arrayLayers)
    (hdiv : imageDesc.dataSize % textureDesc.arrayLayers ≠ 0) :
    D3D11RenderSystem.CreateTexture uninitContents textureDesc (some imageDesc) =
      ([D3DEvent.createTextureObject], Except.error TransferError.InvalidArgument) := by
  simp only [D3D11RenderSystem.CreateTexture, D3D11RenderSystem.InitializeGpuTexture,
    D3D11RenderSystem.InitializeGpuTextureWithImage]
  rw [if_pos hdiv]

/-- Witness for C5 (amended) at a concrete non-divisible input. -/
theorem d3d11_createTexture_layer_divisibility_witness :
    D3D11RenderSystem.CreateTexture (fun _ _ _ => 1)
        { type := .Texture2D, format := .RGBA8UNorm,
          extent := { width := 2, height := 2, depth := 1 },
          arrayLayers := 3, mipLevels := 1, miscFlags := 0, clearValue := { color := 0 } }
        (some { format := .RGBA, dataType := .UInt8, data := some (fun _ => 0),
                dataSize := 7 }) =
      ([D3DEvent.createTextureObject], Except.error TransferError.InvalidArgument) :=
  d3d11_createTexture_layer_divisibility (fun _ _ _ => 1)
    { type := .Texture2D, format := .RGBA8UNorm,
      extent := { width := 2, height := 2, depth := 1 },
      arrayLayers := 3, mipLevels := 1, miscFlags := 0, clearValue := { color := 0 } }
    { format := .RGBA, dataType := .UInt8, data := some (fun _ => 0), dataSize := 7 }
    (by decide) (by decide)

/-- Helper: the payload of a successful result, or a default value. -/
def exceptOkOr {α} (dflt : α) : Except TransferError α → α
  | .ok a => a
  | .error _ => dflt

/-- Helper: a placeholder texture used as the default of `exceptOkOr`. -/
def defaultD3DTexture : D3D11Texture :=
  { type := .Texture2D, format := .RGBA8UNorm, extent := { width := 0, height := 0, depth := 0 },
    arrayLayers := 0, mipLevels := 0, contents := fun _ _ _ => 0 }

/-- Helper: contents after the clear-value per-layer loop: MIP 0 of the first `n`
layers holds the image value inside the box, everything else is untouched. -/
theorem clearLayerLoop_contents (texture : D3D11Texture) (box : D3DBox)
    (imageDescDefault : SrcImageDescriptor) (n : Nat) (m l : Nat) (p : TexPos) :
    ((clearLayerLoop texture box imageDescDefault n).1).contents m l p =
      (if m = 0 ∧ l < n ∧ box.containsPos p then
        (imageDescDefault.data.getD (fun _ => 0)) (box.linearIndex p)
      else texture.contents m l p) := by
  induction n with
  | zero => simp [clearLayerLoop]
  | succ k ih =>
      simp only [clearLayerLoop, D3D11Texture.UpdateSubresource]
      rw [ih]
      cases hcp : box.containsPos p with
      | false => simp [hcp]
      | true =>
          simp only [hcp, and_true, eq_self_iff_true]
          split_ifs <;> first | rfl | omega

/-- Helper: the clear-value per-layer loop does not change the texture type. -/
theorem clearLayerLoop_type (texture : D3D11Texture) (box : D3DBox)
    (imageDescDefault : SrcImageDescriptor) (n : Nat) :
    ((clearLayerLoop texture box imageDescDefault n).1).type = texture.type := by
  induction n with
  | zero => rfl
  | succ k ih =>
      simp only [clearLayerLoop, D3D11Texture.UpdateSubresource]
      exact ih

/-- Helper: a texture created without image data, NoInitialData unset and a
non-depth-stencil format of nonzero bit size keeps its descriptor type and has MIP 0
of every layer filled with the clear color inside the extent box. -/
theorem d3d11_createTexture_none_props (uninitContents : TexContents)
    (textureDesc : TextureDescriptor) (texture : D3D11Texture)
    (hno : (textureDesc.miscFlags &&& MiscFlags.NoInitialData) = 0)
    (hds : (GetFormatAttribs textureDesc.format).isDepthStencil = false)
    (hbits : 0 < (GetFormatAttribs textureDesc.format).bitSize)
    (htex : (D3D11RenderSystem.CreateTexture uninitContents textureDesc none).2 =
      Except.ok texture) :
    texture.type = textureDesc.type ∧
    ∀ m l p, texture.contents m l p =
      (if m = 0 ∧ l < textureDesc.arrayLayers ∧
          D3DBox.containsPos
            { left := 0, top := 0, front := 0, right := textureDesc.extent.width,
              bottom := textureDesc.extent.height, back := textureDesc.extent.depth } p then
        textureDesc.clearValue.color
      else uninitContents m l p) := by
  simp only [D3D11RenderSystem.CreateTexture, D3D11RenderSystem.InitializeGpuTexture, hno,
    D3D11RenderSystem.InitializeGpuTextureWithClearValue, hds, hbits, if_true,
    Bool.false_eq_true, if_false, if_pos, Except.ok.injEq] at htex
  subst htex
  refine ⟨clearLayerLoop_type _ _ _ _, ?_⟩
  intro m l p
  rw [clearLayerLoop_contents]
  rfl

/-- C6: a Direct3D 11 texture created without initial image data, with NoInitialData
unset and a non-compressed, non-depth-stencil color format, is initialized to the
descriptor's clear color on the base MIP level of every array layer, so that a
subsequent partial 2D write returns the written texel values inside the written
region and the clear color everywhere else inside the extent; and the Vulkan backend
under the same conditions uploads a generated default image buffer filled with the
clear color as the texture's initial data. -/
theorem texture_clear_color_init_then_write (uninitContents : TexContents)
    (textureDesc : TextureDescriptor) (textureRegion : TextureRegion)
    (imageDesc : SrcImageDescriptor) (f : Nat → Color) (texture : D3D11Texture)
    (layer : Nat) (x y : Int)
    (htype : textureDesc.type = TextureType.Texture2D)
    (hds : (GetFormatAttribs textureDesc.format).isDepthStencil = false)
    (hbits : 0 < (GetFormatAttribs textureDesc.format).bitSize)
    (hcomp : (GetFormatAttribs textureDesc.format).isCompressed = false)
    (hno : (textureDesc.miscFlags &&& MiscFlags.NoInitialData) = 0)
    (htex : (D3D11RenderSystem.CreateTexture uninitContents textureDesc none).2 =
      Except.ok texture)
    (hmip : textureRegion.subresource.baseMipLevel = 0)
    (hdata : imageDesc.data = some f) :
    ((layer = textureRegion.subresource.baseArrayLayer ∧
        (writeBox2D textureRegion).containsPos (x, y, 0) = true) →
      ((D3D11RenderSystem.WriteTexture texture textureRegion imageDesc).1).contents
          0 layer (x, y, 0) =
        f ((writeBox2D textureRegion).linearIndex (x, y, 0))) ∧
    ((layer < textureDesc.arrayLayers → 0 ≤ x → x < (textureDesc.extent.width : Int) →
      0 ≤ y → y < (textureDesc.extent.height : Int) → 0 < textureDesc.extent.depth →
      ¬(layer = textureRegion.subresource.baseArrayLayer ∧
        (writeBox2D textureRegion).containsPos (x, y, 0) = true) →
      ((D3D11RenderSystem.WriteTexture texture textureRegion imageDesc).1).contents
          0 layer (x, y, 0) =
        textureDesc.clearValue.color)) ∧
    (∀ vkDesc : TextureDescriptor,
      0 < (GetFormatAttribs vkDesc.format).bitSize →
      (GetFormatAttribs vkDesc.format).isCompressed = false →
      (vkDesc.miscFlags &&& MiscFlags.NoInitialData) = 0 →
      VKRenderSystem.CreateTextureInitialData vkDesc none =
        Except.ok (some (fun _ => vkDesc.clearValue.color))) := by
  obtain ⟨htyp, hcont⟩ :=
    d3d11_createTexture_none_props uninitContents textureDesc texture hno hds hbits htex
  have htyp2 : texture.type = TextureType.Texture2D := by rw [htyp, htype]
  refine ⟨?_, ?_, ?_⟩
  · rintro ⟨hlay, hbox⟩
    unfold D3D11RenderSystem.WriteTexture
    rw [htyp2]
    simp only [D3D11Texture.UpdateSubresource]
    rw [if_pos ⟨hmip.symm, hlay, hbox⟩, hdata]
    rfl
  · intro hlt hx0 hxw hy0 hyh hdep hnot
    unfold D3D11RenderSystem.WriteTexture
    rw [htyp2]
    simp only [D3D11Texture.UpdateSubresource]
    rw [if_neg (fun h => hnot ⟨h.2.1, h.2.2⟩), hcont]
    have hin : D3DBox.containsPos
        { left := 0, top := 0, front := 0, right := textureDesc.extent.width,
          bottom := textureDesc.extent.height, back := textureDesc.extent.depth }
        (x, y, 0) = true := by
      simp only [D3DBox.containsPos, decide_eq_true_eq]
      omega
    rw [if_pos ⟨rfl, hlt, hin⟩]
  · intro vkDesc hb hc hn
    simp only [VKRenderSystem.CreateTextureInitialData]
    rw [if_pos hn, if_pos ⟨hb, hc⟩]
    rfl

/-- Witness for C6: a 4x4 RGBA8 texture with clear color 7 and a 2x2 write of value
5 at offset (1,1): the written texel (1,1) reads back 5 and the unwritten texel
(0,0) reads back the clear color 7. -/
theorem texture_clear_color_init_then_write_witness :
    ((D3D11RenderSystem.WriteTexture
        (exceptOkOr defaultD3DTexture
          ((D3D11RenderSystem.CreateTexture (fun _ _ _ => 99)
            { type := .Texture2D, format := .RGBA8UNorm,
              extent := { width := 4, height := 4, depth := 1 },
              arrayLayers := 1, mipLevels := 1, miscFlags := 0, clearValue := { color := 7 } }
            none).2))
        { subresource := { baseArrayLayer := 0, numArrayLayers := 1, baseMipLevel := 0, numMipLevels := 1 },
          offset := { x := 1, y := 1, z := 0 },
          extent := { width := 2, height := 2, depth := 1 } }
        { format := .RGBA, dataType := .UInt8, data := some (fun _ => 5),
          dataSize := 16 }).1).contents 0 0 (1, 1, 0) = 5 ∧
    ((D3D11RenderSystem.WriteTexture
        (exceptOkOr defaultD3DTexture
          ((D3D11RenderSystem.CreateTexture (fun _ _ _ => 99)
            { type := .Texture2D, format := .RGBA8UNorm,
              extent := { width := 4, height := 4, depth := 1 },
              arrayLayers := 1, mipLevels := 1, miscFlags := 0, clearValue := { color := 7 } }
            none).2))
        { subresource := { baseArrayLayer := 0, numArrayLayers := 1, baseMipLevel := 0, numMipLevels := 1 },
          offset := { x := 1, y := 1, z := 0 },
          extent := { width := 2, height := 2, depth := 1 } }
        { format := .RGBA, dataType := .UInt8, data := some (fun _ => 5),
          dataSize := 16 }).1).contents 0 0 (0, 0, 0) = 7 := by
  constructor
  · exact (texture_clear_color_init_then_write (fun _ _ _ => 99)
      { type := .Texture2D, format := .RGBA8UNorm,
        extent := { width := 4, height := 4, depth := 1 },
        arrayLayers := 1, mipLevels := 1, miscFlags := 0, clearValue := { color := 7 } }
      { subresource := { baseArrayLayer := 0, numArrayLayers := 1, baseMipLevel := 0, numMipLevels := 1 },
        offset := { x := 1, y := 1, z := 0 },
        extent := { width := 2, height := 2, depth := 1 } }
      { format := .RGBA, dataType := .UInt8, data := some (fun _ => 5), dataSize := 16 }
      (fun _ => 5) _ 0 1 1 rfl rfl (by decide) rfl rfl rfl rfl rfl).1
      ⟨rfl, by decide⟩
  · exact (texture_clear_color_init_then_write (fun _ _ _ => 99)
      { type := .Texture2D, format := .RGBA8UNorm,
        extent := { width := 4, height := 4, depth := 1 },
        arrayLayers := 1, mipLevels := 1, miscFlags := 0, clearValue := { color := 7 } }
      { subresource := { baseArrayLayer := 0, numArrayLayers := 1, baseMipLevel := 0, numMipLevels := 1 },
        offset := { x := 1, y := 1, z := 0 },
        extent := { width := 2, height := 2, depth := 1 } }
      { format := .RGBA, dataType := .UInt8, data := some (fun _ => 5), dataSize := 16 }
      (fun _ => 5) _ 0 0 0 rfl rfl (by decide) rfl rfl rfl rfl rfl).2.1
      (by decide) (by decide) (by decide) (by decide) (by decide) (by decide) (by decide)

end LLGLSpec
